import Mathlib

/-!
Verification of the track-configuration pipeline of `tools/jbrowse/jbrowse.py`
(the JBrowse Galaxy connector).

The Python program is shallowly embedded below:

* Python dictionaries holding a descriptor become association lists
  (`PyDict`); the single nested level that occurs (the `style` sub-dict,
  whose values are all strings) is a dedicated constructor `JVal.sd`.
* Exceptions become `Except PyErr`; the connector methods become values of
  an explicit state-and-error monad `Eff` whose state carries the shared
  brewer colour cursor, a counter for fresh temporary-file names
  (`tempfile.NamedTemporaryFile`), and a trace of external side effects
  (subprocess invocations, transient payload files written, `os.unlink`).
* External collaborators are parameters: `exitF` gives the exit status of
  each subprocess invocation, `fileScores` gives, for a path, the result of
  attempting `float(line.split(tab)[5])` on each line of the file
  (`none` for a line on which that expression raises), and `md5hex` is the
  `hashlib.md5(path).hexdigest()` function.
* Python 2 `str.format` is modelled by `pyFormat`, faithful to the CPython
  parser on the constructs that can arise here: `\x7b\x7b`/`\x7d\x7d`
  escapes, named and positional replacement fields, and the errors raised
  for a lone brace or for a brace inside a field name.
* Scores are rationals: every score literal appearing in the program and in
  the claims is decimal, and no rounding is exercised by the scanned
  min/max logic.
-/

/-- Errors of the embedded `str.format` parser, mirroring the exceptions the
CPython implementation raises while formatting. -/
inductive FmtErr where
  | keyErr (k : String)
  | indexErr (i : Nat)
  | unexpectedBraceInFieldName
  | singleRBrace
  | unmatchedLBrace
  | badConversion
  | specNested
deriving DecidableEq

/-- Python exceptions that the connector code can raise. -/
inductive PyErr where
  | keyError (k : String)
  | indexError
  | nameError (n : String)
  | typeError
  | calledProcessError (code : Nat)
  | fmtError (e : FmtErr)
  | exception (msg : String)
deriving DecidableEq

/-- Value stored in a track-descriptor dictionary: either a string or the
one flat string-valued sub-dictionary that occurs (the `style` entry). -/
inductive JVal where
  | s (v : String)
  | sd (v : List (String × String))
deriving DecidableEq

/-- Track descriptor dictionary (`trackData` in the source). -/
abbrev PyDict := List (String × JVal)

/-- Argument value for a positional `str.format` argument: the program only
ever passes a single flat dict positionally (never substituted, see the
theorems about `COLOR_FUNCTION_TEMPLATE`). -/
inductive PyVal where
  | str (v : String)
  | dict (v : List (String × String))
deriving DecidableEq

/-- Concatenate strings with a separator (`sep.join(parts)`). -/
def joinSep (sep : String) : List String → String
  | [] => ""
  | [x] => x
  | x :: xs => x ++ sep ++ joinSep sep xs

/-- Replacement worker over character lists, fuelled by the length of the
remaining input (each step consumes at least one character). -/
def replaceAux (pat repl : List Char) : Nat → List Char → List Char
  | 0, cs => cs
  | _ + 1, [] => []
  | fuel + 1, c :: cs =>
    if pat.isPrefixOf (c :: cs) then
      repl ++ replaceAux pat repl fuel ((c :: cs).drop pat.length)
    else c :: replaceAux pat repl fuel cs

/-- Python `s.replace(pat, repl)`: replace the non-overlapping occurrences
left to right (only called with non-empty patterns in this program). -/
def pyReplace (s pat repl : String) : String :=
  String.mk (replaceAux pat.data repl.data (s.data.length + 1) s.data)

/-- Python `os.path.basename`: the suffix after the last slash. -/
def pyBasename (p : String) : String :=
  String.mk (p.data.foldl (fun acc c => if c = '/' then [] else acc ++ [c]) [])

/-- Set one key of a flat string dictionary, Python `d[k] = v` semantics:
replace in place if present, append otherwise. -/
def flatSet (d : List (String × String)) (k v : String) : List (String × String) :=
  if d.any (fun p => p.1 == k) then
    d.map (fun p => if p.1 == k then (k, v) else p)
  else d ++ [(k, v)]

/-- Python `dict.update` on a flat string dictionary. -/
def flatUpdate (d : List (String × String)) (kvs : List (String × String)) :
    List (String × String) :=
  kvs.foldl (fun acc p => flatSet acc p.1 p.2) d

/-- Python `d.get(k, dflt)` on a flat string dictionary. -/
def flatGetD (d : List (String × String)) (k dflt : String) : String :=
  (d.lookup k).getD dflt

/-- Set one key of a descriptor dictionary (`d[k] = v`). -/
def dictSet (d : PyDict) (k : String) (v : JVal) : PyDict :=
  if d.any (fun p => p.1 == k) then
    d.map (fun p => if p.1 == k then (k, v) else p)
  else d ++ [(k, v)]

/-- Python `dict.update` on a descriptor dictionary. -/
def dictUpdate (d : PyDict) (kvs : List (String × JVal)) : PyDict :=
  kvs.foldl (fun acc p => dictSet acc p.1 p.2) d

/-- Minimal JSON rendering of a flat string dictionary (`json.dumps`); the
values serialized by the program contain no quote characters, so escaping
is not modelled. -/
def dumpsFlat (d : List (String × String)) : String :=
  "\x7b" ++ joinSep ", "
    (d.map (fun p => "\x22" ++ p.1 ++ "\x22: \x22" ++ p.2 ++ "\x22")) ++ "\x7d"

/-- Minimal JSON rendering of a descriptor dictionary (`json.dumps`). -/
def dumps (d : PyDict) : String :=
  "\x7b" ++ joinSep ", "
    (d.map (fun p =>
      match p.2 with
      | JVal.s v => "\x22" ++ p.1 ++ "\x22: \x22" ++ v ++ "\x22"
      | JVal.sd v => "\x22" ++ p.1 ++ "\x22: " ++ dumpsFlat v)) ++ "\x7d"

/-- String rendering of a positional format argument (`str(value)`); a dict
argument is rendered JSON-like.  No positional field is ever substituted in
the templates of this program, so this rendering is never exercised. -/
def PyVal.render : PyVal → String
  | .str v => v
  | .dict v => dumpsFlat v

/-- Field lookup of `str.format`: an empty name auto-numbers the positional
arguments, a numeric name indexes them, any other name is looked up among
the keyword arguments. -/
def getField (args : List PyVal) (kwargs : List (String × String)) (auto : Nat)
    (name : String) : Except FmtErr (String × Nat) :=
  if name = "" then
    match args[auto]? with
    | some v => .ok (v.render, auto + 1)
    | none => .error (.indexErr auto)
  else if name.data.all Char.isDigit then
    let ix := name.data.foldl (fun n c => n * 10 + (c.toNat - 48)) 0
    match args[ix]? with
    | some v => .ok (v.render, auto)
    | none => .error (.indexErr ix)
  else
    match kwargs.lookup name with
    | some v => .ok (v, auto)
    | none => .error (.keyErr name)

/-- Parsing mode of the `str.format` scanner. -/
inductive FmtMode where
  | literal
  | fieldName (name : String)
  | fieldConv (name : String) (conv : Option Char)
  | fieldSpec (name : String) (spec : String)
deriving DecidableEq

/-- Scanner of Python `str.format`, faithful to the CPython parser on the
constructs reachable from this program: doubled braces are escapes; an
unmatched closing brace raises; a `\x7b` encountered while reading a field
name raises the `unexpected brace in field name` ValueError.  Conversion
markers and format specs do not occur in the templates of `jbrowse.py`;
they are parsed but their effect on the substituted value is not modelled,
and a replacement field nested inside a spec is not modelled. -/
def fmtScan (args : List PyVal) (kwargs : List (String × String)) :
    List Char → FmtMode → Nat → String → Except FmtErr String
  | [], .literal, _, acc => .ok acc
  | [], _, _, _ => .error .unmatchedLBrace
  | '\x7b' :: '\x7b' :: cs, .literal, auto, acc =>
    fmtScan args kwargs cs .literal auto (acc.push '\x7b')
  | '\x7d' :: '\x7d' :: cs, .literal, auto, acc =>
    fmtScan args kwargs cs .literal auto (acc.push '\x7d')
  | '\x7b' :: cs, .literal, auto, acc =>
    fmtScan args kwargs cs (.fieldName "") auto acc
  | '\x7d' :: _, .literal, _, _ => .error .singleRBrace
  | c :: cs, .literal, auto, acc => fmtScan args kwargs cs .literal auto (acc.push c)
  | '\x7d' :: cs, .fieldName name, auto, acc =>
    match getField args kwargs auto name with
    | .ok (v, auto2) => fmtScan args kwargs cs .literal auto2 (acc ++ v)
    | .error e => .error e
  | '\x7b' :: _, .fieldName _, _, _ => .error .unexpectedBraceInFieldName
  | ':' :: cs, .fieldName name, auto, acc =>
    fmtScan args kwargs cs (.fieldSpec name "") auto acc
  | '!' :: cs, .fieldName name, auto, acc =>
    fmtScan args kwargs cs (.fieldConv name none) auto acc
  | c :: cs, .fieldName name, auto, acc =>
    fmtScan args kwargs cs (.fieldName (name.push c)) auto acc
  | c :: cs, .fieldConv name none, auto, acc =>
    fmtScan args kwargs cs (.fieldConv name (some c)) auto acc
  | '\x7d' :: cs, .fieldConv name (some _), auto, acc =>
    match getField args kwargs auto name with
    | .ok (v, auto2) => fmtScan args kwargs cs .literal auto2 (acc ++ v)
    | .error e => .error e
  | ':' :: cs, .fieldConv name (some _), auto, acc =>
    fmtScan args kwargs cs (.fieldSpec name "") auto acc
  | _ :: _, .fieldConv _ (some _), _, _ => .error .badConversion
  | '\x7d' :: cs, .fieldSpec name _, auto, acc =>
    match getField args kwargs auto name with
    | .ok (v, auto2) => fmtScan args kwargs cs .literal auto2 (acc ++ v)
    | .error e => .error e
  | '\x7b' :: _, .fieldSpec _ _, _, _ => .error .specNested
  | c :: cs, .fieldSpec name spec, auto, acc =>
    fmtScan args kwargs cs (.fieldSpec name (spec.push c)) auto acc

/-- Python 2 `template.format(args..., kwargs...)`. -/
def pyFormat (args : List PyVal) (kwargs : List (String × String))
    (tmpl : String) : Except FmtErr String :=
  fmtScan args kwargs tmpl.data .literal 0 ""

/-- Module constant `COLOR_FUNCTION_TEMPLATE` of `jbrowse.py`: the
JavaScript colour callback skeleton, whose function-body braces are NOT
doubled for `str.format`. -/
def COLOR_FUNCTION_TEMPLATE : String :=
  "\nfunction(feature, variableName, glyphObject, track) \x7b\n    var score = \x7bscore\x7d;\n    \x7bopacity\x7d\n    return \x27rgba(\x7bred\x7d, \x7bgreen\x7d, \x7bblue\x7d, \x27 + opacity + \x27)\x27;\n\x7d\n"

/-- Module constant `BLAST_OPACITY_MATH` of `jbrowse.py`: the JavaScript
snippet computing the log-decay opacity for alignment-result scores. -/
def BLAST_OPACITY_MATH : String :=
  "\nvar opacity = 0;\nif(score == 0.0) \x7b\n    opacity = 1;\n\x7d else\x7b\n    opacity = (20 - Math.log10(score)) / 180;\n\x7d\n"

/-- Template string of `MIN_MAX_OPACITY_MATH` inside
`JbrowseConnector.add_features` (before `.format`). -/
def MIN_MAX_OPACITY_TEMPLATE : String :=
  "\n                var opacity = (score - $\x7bmin\x7d) * (1/($\x7bmax\x7d - $\x7bmin\x7d));\n                "

/-- String form of a Python float as produced by `str.format` for the
scanned `min`/`max` values.  Exact for the integral values arising in the
claims; a non-integral rational is rendered from its reduced fraction
(Python would print a decimal expansion instead, but no claim evaluates the
template at a non-integral score). -/
def pyFloatRepr (q : ℚ) : String :=
  if q.den = 1 then toString q.num ++ ".0"
  else toString q.num ++ "/" ++ toString q.den

/-- Construction of `MIN_MAX_OPACITY_MATH` in `add_features`:
`template.format(max=max_val, min=min_val)`. -/
def MIN_MAX_OPACITY_MATH (min_val max_val : ℚ) : Except FmtErr String :=
  pyFormat [] [("max", pyFloatRepr max_val), ("min", pyFloatRepr min_val)]
    MIN_MAX_OPACITY_TEMPLATE

/-- Module constant `BREWER_COLOUR_SCHEMES` of `jbrowse.py` (the live
12 entries; the trailing commented-out entries of the source are omitted
because Python never sees them). -/
def BREWER_COLOUR_SCHEMES : List (Nat × Nat × Nat) :=
  [(166, 206, 227),
   (31, 120, 180),
   (178, 223, 138),
   (51, 160, 44),
   (251, 154, 153),
   (227, 26, 28),
   (253, 191, 111),
   (255, 127, 0),
   (202, 178, 214),
   (106, 61, 154),
   (255, 255, 153),
   (177, 89, 40)]

/-- Module constant `BREWER_DIVERGING_PALLETES` of `jbrowse.py`. -/
def BREWER_DIVERGING_PALLETES : List (String × String × String) :=
  [("BrBg", "#543005", "#003c30"),
   ("PiYg", "#8e0152", "#276419"),
   ("PRGn", "#40004b", "#00441b"),
   ("PuOr", "#7f3b08", "#2d004b"),
   ("RdBu", "#67001f", "#053061"),
   ("RdGy", "#67001f", "#1a1a1a"),
   ("RdYlBu", "#a50026", "#313695"),
   ("RdYlGn", "#a50026", "#006837"),
   ("Spectral", "#9e0142", "#5e4fa2")]

/-- Recognized diverging-palette names (the keys of
`BREWER_DIVERGING_PALLETES`). -/
def divergingNames : List String := BREWER_DIVERGING_PALLETES.map (fun p => p.1)

/-- Lookup of a named diverging palette (`BREWER_DIVERGING_PALLETES[name]`,
guarded in the source by a membership test). -/
def divergingLookup (name : String) : Option (String × String) :=
  BREWER_DIVERGING_PALLETES.lookup name

/-- Module constant `TN_TABLE` of `jbrowse.py`. -/
def TN_TABLE : List (String × String) :=
  [("gff3", "--gff"), ("gff", "--gff"), ("bed", "--bed"), ("genbank", "--gbk")]

/-- Python `TN_TABLE.get(format, "gff")` (note the dash-less default of the
source). -/
def tnGet (format : String) : String := (TN_TABLE.lookup format).getD "gff"

/-- Module constant `INSTALLED_TO` of `jbrowse.py`
(`os.path.dirname(os.path.realpath(__file__))`); environment-dependent,
modelled as a fixed path. -/
def INSTALLED_TO : String := "/opt/galaxy/tools/jbrowse"

deriving instance DecidableEq for Except

/-- Observable side effect of the connector: a subprocess invocation
(optionally with its standard output redirected to a file), a transient
JSON payload file written for `add-track-json.pl`, or an `os.unlink`. -/
inductive Effect where
  | runCmd (cmd : List String)
  | runCmdOut (cmd : List String) (stdout : String)
  | writeTmp (name : String) (payload : PyDict)
  | unlink (name : String)
deriving DecidableEq

/-- Mutable state threaded through a run: the shared brewer colour cursor
(`self.brewer_colour_idx`), a counter generating the distinct names of
`tempfile.NamedTemporaryFile`, and the trace of side effects so far. -/
structure PyState where
  brewerIdx : Nat
  tmpCount : Nat
  trace : List Effect
deriving DecidableEq

/-- State of a freshly constructed connector. -/
def PyState.init : PyState := ⟨0, 0, []⟩

/-- Computation of a connector method: explicit state passing with Python
exceptions as `Except.error`. -/
def Eff (α : Type) : Type := PyState → Except PyErr α × PyState

/-- Return a value, leaving the state unchanged. -/
def Eff.pure (a : α) : Eff α := fun s => (.ok a, s)

/-- Sequence two computations; an exception short-circuits. -/
def Eff.bind (m : Eff α) (f : α → Eff β) : Eff β := fun s =>
  match m s with
  | (Except.ok a, s1) => f a s1
  | (Except.error e, s1) => (Except.error e, s1)

instance : Monad Eff where
  pure := Eff.pure
  bind := Eff.bind

/-- Raise a Python exception. -/
def Eff.throw (e : PyErr) : Eff α := fun s => (.error e, s)

/-- Record a side effect. -/
def emit (e : Effect) : Eff Unit := fun s =>
  (.ok (), { s with trace := s.trace ++ [e] })

/-- Create a fresh temporary file name
(`tempfile.NamedTemporaryFile(delete=False)`). -/
def freshTmp : Eff String := fun s =>
  (.ok ("/tmp/tmp" ++ toString s.tmpCount), { s with tmpCount := s.tmpCount + 1 })

/-- Lift a `str.format` result, raising the corresponding exception
(KeyError or ValueError) when formatting fails. -/
def ofFmtE : Except FmtErr α → Eff α
  | .ok a => Eff.pure a
  | .error e => Eff.throw (.fmtError e)

/-- Python `kwargs[k]` on an optional field: KeyError when absent. -/
def require (o : Option α) (k : String) : Eff α :=
  match o with
  | some v => Eff.pure v
  | none => Eff.throw (.keyError k)

/-- Python `trackData[k]` expected to be a string. -/
def dictGetStr (d : PyDict) (k : String) : Eff String :=
  match d.lookup k with
  | some (JVal.s v) => Eff.pure v
  | some (JVal.sd _) => Eff.throw .typeError
  | none => Eff.throw (.keyError k)

/-- Python `trackData[k]` expected to be the flat style sub-dictionary. -/
def dictGetSd (d : PyDict) (k : String) : Eff (List (String × String)) :=
  match d.lookup k with
  | some (JVal.sd v) => Eff.pure v
  | some (JVal.s _) => Eff.throw .typeError
  | none => Eff.throw (.keyError k)

/-- Python `track[options][style][k]`: KeyError when absent. -/
def styleGet (style : List (String × String)) (k : String) : Eff String :=
  match style.lookup k with
  | some v => Eff.pure v
  | none => Eff.throw (.keyError k)

/-- Method `JbrowseConnector.subprocess_check_call`: run the command in the
jbrowse directory; `subprocess.check_call` raises `CalledProcessError` on a
non-zero exit status.  The exit status of each invocation is supplied by
the external-collaborator parameter `exitF`. -/
def subprocess_check_call (exitF : List String → Nat) (cmd : List String) :
    Eff Unit := do
  emit (.runCmd cmd)
  if exitF cmd = 0 then Eff.pure () else Eff.throw (.calledProcessError (exitF cmd))

/-- Direct `subprocess.check_call(cmd, cwd=..., stdout=handle)` as used in
`add_blastxml`. -/
def check_call_stdout (exitF : List String → Nat) (cmd : List String)
    (out : String) : Eff Unit := do
  emit (.runCmdOut cmd out)
  if exitF cmd = 0 then Eff.pure () else Eff.throw (.calledProcessError (exitF cmd))

/-- Method `JbrowseConnector._get_colours`: return
`BREWER_COLOUR_SCHEMES[self.brewer_colour_idx]` and advance the cursor.
The source applies no modulo, so an index beyond the 12 entries raises
IndexError (before the increment). -/
def _get_colours : Eff (Nat × Nat × Nat) := fun s =>
  match BREWER_COLOUR_SCHEMES[s.brewerIdx]? with
  | some c => (.ok c, { s with brewerIdx := s.brewerIdx + 1 })
  | none => (.error .indexError, s)

/-- Run `n` consecutive sequential colour allocations from a given state,
collecting the returned triples in order. -/
def allocColours : Nat → Eff (List (Nat × Nat × Nat))
  | 0 => Eff.pure []
  | n + 1 => do
    let c ← _get_colours
    let cs ← allocColours n
    Eff.pure (c :: cs)

/-- Method `JbrowseConnector._add_json`: skip an empty descriptor; write
the JSON payload to a fresh transient file, invoke `add-track-json.pl` on
it, and unlink the file.  The unlink follows the invocation with no
try/finally, so it is modelled (as in the source) on the success path
only: a raised `CalledProcessError` propagates first. -/
def _add_json (exitF : List String → Nat) (json_data : PyDict) : Eff Unit := do
  if json_data.length = 0 then
    Eff.pure ()
  else do
    let tmp ← freshTmp
    emit (.writeTmp tmp json_data)
    subprocess_check_call exitF
      ["perl", "bin/add-track-json.pl", tmp, "data/trackList.json"]
    emit (.unlink tmp)

/-- Python `or` applied to an optional running extreme: `None` and `0.0`
are both falsy, so `(min_val or value)` yields `value` in either case. -/
def pyOr (o : Option ℚ) (v : ℚ) : ℚ :=
  match o with
  | none => v
  | some x => if x = 0 then v else x

/-- Loop body of `_min_max_gff` for one successfully parsed score,
including the two trailing comparisons of the source (which can never fire
after the `min`/`max` assignments). -/
def minMaxStep (acc : Option ℚ × Option ℚ) (value : ℚ) : Option ℚ × Option ℚ :=
  let min_val := min value (pyOr acc.1 value)
  let max_val := max value (pyOr acc.2 value)
  let min_val := if value < min_val then value else min_val
  let max_val := if value > max_val then value else max_val
  (some min_val, some max_val)

/-- Method `JbrowseConnector._min_max_gff`: stream the lines; a line is
represented by the result of attempting `float(line.split(tab)[5])`
(`none` when that expression raises, which the source silently swallows). -/
def _min_max_gff (lines : List (Option ℚ)) : Option ℚ × Option ℚ :=
  lines.foldl
    (fun acc l =>
      match l with
      | none => acc
      | some value => minMaxStep acc value)
    (none, none)

/-- Per-track options (`track[options]`, passed to the builders as
`**kwargs`).  Keys that the source reads by direct indexing are `Option`
fields resolved through `require` (KeyError when absent); keys read with
`.get` carry their default through `Option.getD`.  The key named `match`
is called `mtch` because `match` is reserved in Lean. -/
structure Kwargs where
  style : List (String × String)
  category : Option String
  autoSnp : Bool
  bamIndex : Option String
  typeOverride : Option String
  minV : Option String
  maxV : Option String
  autoscale : Option String
  mtch : Bool
  minGap : Option String
  protein : Option Bool
  parent : Option String
deriving DecidableEq

/-- One entry of the declarative track list.  `ext` is the format list the
dispatcher reads (`track[ext][0]`), `format` the separate `track[format]`
key that `_parse_colours` branches on, `bamIndexes` the optional
track-level `bam_indexes` list. -/
structure Track where
  ext : List String
  format : String
  files : List String
  labels : List String
  bamIndexes : Option (List String)
  options : Kwargs
deriving DecidableEq

/-- Method `JbrowseConnector._parse_colours`: a wiggle track gets a bicolor
palette (named diverging palette under the `brewer` config, raising on an
unknown name, else explicit positive/negative colours); any other track
either auto-allocates the next brewer colour or uses the explicit colour,
with the `__pd__` escape replaced by `#`.  The source guards the palette
lookup with a membership test and then indexes; the combined
`divergingLookup` is equivalent because the keys are distinct. -/
def _parse_colours (track : Track) : Eff (List (String × String)) := do
  if track.format == "wiggle" then do
    let colorConfig ← styleGet track.options.style "color_config"
    if colorConfig == "brewer" then do
      let scheme ← styleGet track.options.style "color"
      match divergingLookup scheme with
      | none => Eff.throw (.exception "Unknown pallete")
      | some (pos_color, neg_color) =>
        Eff.pure [("pos_color", pos_color), ("neg_color", neg_color)]
    else do
      let p ← styleGet track.options.style "color_pos"
      let n ← styleGet track.options.style "color_neg"
      Eff.pure [("pos_color", pyReplace p "__pd__" "#"),
                ("neg_color", pyReplace n "__pd__" "#")]
  else do
    let c ← styleGet track.options.style "color"
    if c == "__auto__" then do
      let rgb ← _get_colours
      Eff.pure [("color", "rgba(" ++ toString rgb.1 ++ ", " ++ toString rgb.2.1
                  ++ ", " ++ toString rgb.2.2 ++ ", 1)")]
    else
      Eff.pure [("color", pyReplace c "__pd__" "#")]

/-- Method `JbrowseConnector.add_bigwig`: link the file into the raw-data
area, set the density-track descriptor fields, default the bicolor pivot,
honour a type override, use explicit min/max only when both are supplied
(else viewer-side autoscale), and hand the descriptor to `_add_json`.  The
updated descriptor is returned because the source mutates the shared
`trackData` dict in place. -/
def add_bigwig (exitF : List String → Nat) (data : String) (trackData : PyDict)
    (kwargs : Kwargs) : Eff PyDict := do
  let dest := "data/raw/" ++ pyBasename data
  subprocess_check_call exitF ["ln", data, dest]
  let trackData := dictUpdate trackData
    [("urlTemplate", .s ("../" ++ dest)),
     ("storeClass", .s "JBrowse/Store/SeqFeature/BigWig"),
     ("type", .s "JBrowse/View/Track/Wiggle/Density")]
  let trackData :=
    if (trackData.lookup "bicolor_pivot").isNone then
      dictUpdate trackData
        [("bicolor_pivot", .s (flatGetD kwargs.style "bicolor_pivot" "zero"))]
    else trackData
  let trackData :=
    match kwargs.typeOverride with
    | some t => dictUpdate trackData [("type", .s t)]
    | none => trackData
  let trackData :=
    match kwargs.minV, kwargs.maxV with
    | some mn, some mx =>
      dictUpdate trackData [("min", .s mn), ("max", .s mx)]
    | _, _ =>
      dictUpdate trackData [("autoscale", .s (kwargs.autoscale.getD "local"))]
  _add_json exitF trackData
  Eff.pure trackData

/-- Method `JbrowseConnector.add_bam`: symlink the BAM and its index, set
the alignments descriptor fields, submit the descriptor; under the
`auto_snp` option the source then builds a second SNP/coverage descriptor
`trackData2` with a derived key and label but submits `trackData` — the
unmodified base descriptor — a second time (`self._add_json(trackData)` on
the final line of the method). -/
def add_bam (exitF : List String → Nat) (data : String) (trackData : PyDict)
    (kwargs : Kwargs) : Eff PyDict := do
  let dest := "data/raw/" ++ pyBasename data
  subprocess_check_call exitF ["ln", "-s", data, dest]
  let bai_source ← require kwargs.bamIndex "bam_index"
  subprocess_check_call exitF ["ln", "-s", bai_source, dest ++ ".bai"]
  let trackData := dictUpdate trackData
    [("urlTemplate", .s ("../" ++ dest)),
     ("type", .s "JBrowse/View/Track/Alignments2"),
     ("storeClass", .s "JBrowse/Store/SeqFeature/BAM")]
  let trackData :=
    match kwargs.category with
    | some c => dictUpdate trackData [("category", .s c)]
    | none => trackData
  _add_json exitF trackData
  if kwargs.autoSnp then do
    let key ← dictGetStr trackData "key"
    let label ← dictGetStr trackData "label"
    let _trackData2 := dictUpdate trackData
      [("type", .s "JBrowse/View/Track/SNPCoverage"),
       ("key", .s (key ++ " - SNPs/Coverage")),
       ("label", .s (label ++ "_autosnp"))]
    _add_json exitF trackData
    Eff.pure trackData
  else
    Eff.pure trackData

/-- Names visible inside `JbrowseConnector.add_vcf`: its parameters and
locally assigned variables, followed by the module-level globals of
`jbrowse.py`.  The descriptor parameter of this method is bound to the
name `clientConfig`; no binding of the name `trackData` exists in this
scope. -/
def addVcfVisibleNames : List String :=
  ["self", "data", "clientConfig", "kwargs", "dest", "cmd",
   "os", "copy", "argparse", "subprocess", "hashlib", "tempfile", "json",
   "yaml", "logging", "log",
   "COLOR_FUNCTION_TEMPLATE", "BLAST_OPACITY_MATH", "BREWER_COLOUR_IDX",
   "BREWER_COLOUR_SCHEMES", "BREWER_DIVERGING_PALLETES", "TN_TABLE",
   "INSTALLED_TO", "JbrowseConnector"]

/-- Method `JbrowseConnector.add_vcf`: symlink, block-gzip and
tabix-index the variant file, then execute `trackData.update(...)`.
Python resolves the name `trackData` first; it is unbound in this scope
(the parameter is named `clientConfig`), so a NameError is raised at that
statement and no descriptor is built or submitted. -/
def add_vcf (exitF : List String → Nat) (data : String)
    (clientConfig : PyDict) : Eff Unit := do
  let dest := "data/raw/" ++ pyBasename data
  subprocess_check_call exitF ["ln", "-s", data, dest]
  subprocess_check_call exitF ["bgzip", dest]
  subprocess_check_call exitF ["tabix", "-p", "vcf", dest ++ ".gz"]
  if addVcfVisibleNames.contains "trackData" then
    -- Unreachable: were a dict bound to that name, the source would update
    -- it with the VCFTabix descriptor fields and submit it via _add_json.
    let _ := clientConfig
    Eff.pure ()
  else
    Eff.throw (.nameError "trackData")

/-- Method `JbrowseConnector.add_blastxml`: run the gapped-alignment
transform and the rebasing transform into fresh temporary files, allocate
a colour, and build the colour callback by formatting
`COLOR_FUNCTION_TEMPLATE` with a single positional dict — the remainder
(descriptor submission and temporary-file cleanup) is reached only if that
formatting succeeds. -/
def add_blastxml (exitF : List String → Nat) (data : String)
    (trackData : PyDict) (kwargs : Kwargs) : Eff Unit := do
  let gff3_unrebased ← freshTmp
  let min_gap ← require kwargs.minGap "min_gap"
  check_call_stdout exitF
    ["python", INSTALLED_TO ++ "/blastxml_to_gapped_gff3.py",
     "--trim_end", "--min_gap", min_gap, data] gff3_unrebased
  let gff3_rebased ← freshTmp
  let protein ← require kwargs.protein "protein"
  let parent ← require kwargs.parent "parent"
  check_call_stdout exitF
    (["python", INSTALLED_TO ++ "/gff3_rebase.py"]
      ++ (if protein then ["--protein2dna"] else [])
      ++ [parent, gff3_unrebased]) gff3_rebased
  let rgb ← _get_colours
  let color_function ← ofFmtE (pyFormat
    [PyVal.dict
      [("score", "feature._parent.get(\x27score\x27)"),
       ("opacity", BLAST_OPACITY_MATH),
       ("red", toString rgb.1),
       ("green", toString rgb.2.1),
       ("blue", toString rgb.2.2)]]
    [] COLOR_FUNCTION_TEMPLATE)
  let clientConfig ← dictGetSd trackData "style"
  let clientConfig := flatSet clientConfig "color" (pyReplace color_function "\n" "")
  let config : List (String × String) :=
    [("glyph", "JBrowse/View/FeatureGlyph/Segments")]
  let config :=
    match kwargs.category with
    | some c => flatSet config "category" c
    | none => config
  let label ← dictGetStr trackData "label"
  let key ← dictGetStr trackData "key"
  subprocess_check_call exitF
    ["perl", "bin/flatfile-to-json.pl",
     "--gff", gff3_rebased,
     "--trackLabel", label,
     "--key", key,
     "--clientConfig", dumpsFlat clientConfig,
     "--config", dumpsFlat config,
     "--trackType", "JBrowse/View/Track/CanvasFeatures"]
  emit (.unlink gff3_rebased)
  emit (.unlink gff3_unrebased)

/-- Method `JbrowseConnector.add_features`: build the flatfile-to-json
command; under match mode, scan the score range and, when both extremes
are present, format the linear-normalize opacity snippet (unguarded for
`min == max`), allocate a colour and format the colour callback (again a
positional dict against `COLOR_FUNCTION_TEMPLATE`), then switch to the
segments glyph and canvas track type.  The score column of the file at
`data` is supplied by the collaborator parameter `fileScores`. -/
def add_features (exitF : List String → Nat)
    (fileScores : String → List (Option ℚ)) (data : String) (format : String)
    (trackData : PyDict) (kwargs : Kwargs) : Eff Unit := do
  let label ← dictGetStr trackData "label"
  let key ← dictGetStr trackData "key"
  let cmd := ["perl", "bin/flatfile-to-json.pl", tnGet format, data,
              "--trackLabel", label, "--key", key]
  let config : List (String × String) := []
  let clientConfig ← dictGetSd trackData "style"
  let config :=
    match kwargs.category with
    | some c => flatSet config "category" c
    | none => config
  let state ←
    if kwargs.mtch then do
      let mm := _min_max_gff (fileScores data)
      let clientConfig ←
        match mm.1, mm.2 with
        | some min_val, some max_val => do
          let opacityMath ← ofFmtE (MIN_MAX_OPACITY_MATH min_val max_val)
          let rgb ← _get_colours
          let color_function ← ofFmtE (pyFormat
            [PyVal.dict
              [("score", "feature.get(\x27score\x27)"),
               ("opacity", opacityMath),
               ("red", toString rgb.1),
               ("green", toString rgb.2.1),
               ("blue", toString rgb.2.2)]]
            [] COLOR_FUNCTION_TEMPLATE)
          Eff.pure (flatSet clientConfig "color" (pyReplace color_function "\n" ""))
        | _, _ => Eff.pure clientConfig
      let config := flatSet config "glyph" "JBrowse/View/FeatureGlyph/Segments"
      let cmd := cmd ++ ["--clientConfig", dumpsFlat clientConfig,
                         "--trackType", "JBrowse/View/Track/CanvasFeatures"]
      Eff.pure (cmd, config)
    else
      Eff.pure (cmd, config)
  subprocess_check_call exitF (state.1 ++ ["--config", dumpsFlat state.2])

/-- Dispatch chain at the end of `JbrowseConnector.process_annotations`
(the if/elif ladder on `track[ext][0]`): route each (file, label) pair to
its builder.  There is no final else branch, so an unrecognized format
falls through and the pair is processed as a no-op.  The possibly mutated
descriptor is returned for the next loop iteration. -/
def dispatchFormat (exitF : List String → Nat)
    (fileScores : String → List (Option ℚ)) (format dataset : String)
    (trackData : PyDict) (kwargs : Kwargs) : Eff PyDict :=
  if format == "gff" || format == "gff3" || format == "bed" then do
    add_features exitF fileScores dataset format trackData kwargs
    Eff.pure trackData
  else if format == "bigwig" then
    add_bigwig exitF dataset trackData kwargs
  else if format == "bam" then
    add_bam exitF dataset trackData kwargs
  else if format == "blastxml" then do
    add_blastxml exitF dataset trackData kwargs
    Eff.pure trackData
  else if format == "vcf" then do
    add_vcf exitF dataset trackData
    Eff.pure trackData
  else
    Eff.pure trackData

/-- Stable ascending insertion by first component, modelling
`zipped_tracks.sort(key=lambda x: x[0])`. -/
def insertByFst (p : String × String) :
    List (String × String) → List (String × String)
  | [] => [p]
  | q :: t => if p.1 < q.1 then p :: q :: t else q :: insertByFst p t

/-- Stable sort by first component (file path). -/
def sortByFst : List (String × String) → List (String × String)
  | [] => []
  | p :: t => insertByFst p (sortByFst t)

/-- Per-file loop of `process_annotations`: set the human key and the
hashed label on the shared descriptor, resolve the per-file BAM index from
a track-level `bam_indexes` list (the source stores it into
`track[bam_index]`, which no builder reads back), and dispatch on the
format.  The two debug prints of the source are not side effects of the
pipeline and are not modelled. -/
def annotationLoop (md5hex : String → String) (exitF : List String → Nat)
    (fileScores : String → List (Option ℚ)) (track : Track) (format : String) :
    List (String × String) → Nat → PyDict → Eff Unit
  | [], _, _ => Eff.pure ()
  | (dataset, track_human_label) :: rest, i, trackData => do
    let trackData := dictUpdate trackData
      [("key", .s track_human_label),
       ("label", .s (md5hex dataset ++ "_" ++ toString i))]
    match track.bamIndexes with
    | some ixs =>
      match ixs[i]? with
      | some _ => Eff.pure ()
      | none => Eff.throw .indexError
    | none => Eff.pure ()
    let trackData ← dispatchFormat exitF fileScores format dataset trackData
      track.options
    annotationLoop md5hex exitF fileScores track format rest (i + 1) trackData

/-- Method `JbrowseConnector.process_annotations`: read the declared
format from `track[ext][0]`, assemble the base client display config from
the style options, merge in the colour assignment from `_parse_colours`,
then iterate the (file, label) pairs in sorted order through the dispatch
chain. -/
def process_annotations (md5hex : String → String) (exitF : List String → Nat)
    (fileScores : String → List (Option ℚ)) (track : Track) : Eff Unit := do
  let format ←
    match track.ext.head? with
    | some f => Eff.pure f
    | none => Eff.throw .indexError
  let kwargs := track.options
  let clientConfig : List (String × String) :=
    [("label", flatGetD kwargs.style "label" "description"),
     ("classname", flatGetD kwargs.style "className" "feature"),
     ("description", flatGetD kwargs.style "description" ""),
     ("height", flatGetD kwargs.style "height" "100px")]
  let extra ← _parse_colours track
  let clientConfig := flatUpdate clientConfig extra
  let trackData : PyDict := [("style", JVal.sd clientConfig)]
  let zipped_tracks := sortByFst (track.files.zip track.labels)
  annotationLoop md5hex exitF fileScores track format zipped_tracks 0 trackData

/-- Descriptor payloads handed to the config-merge collaborator, in order,
as recorded in a trace. -/
def descriptorPayloads (tr : List Effect) : List PyDict :=
  tr.filterMap (fun e =>
    match e with
    | .writeTmp _ d => some d
    | _ => none)

/-- Test for an unlink effect. -/
def isUnlinkEffect : Effect → Bool
  | .unlink _ => true
  | _ => false

/-- Exit-status collaborator under which every external invocation
succeeds. -/
def allOk : List String → Nat := fun _ => 0

/-- Format values recognized by the dispatch chain of
`process_annotations`. -/
def recognizedFormats : List String :=
  ["gff", "gff3", "bed", "bigwig", "bam", "blastxml", "vcf"]

/-- Denotation of the JavaScript conditional in `BLAST_OPACITY_MATH`: the
per-feature opacity the emitted snippet computes from the parent-feature
score.  `Math.log10` is the base-10 logarithm `Real.logb 10`. -/
noncomputable def logDecayOpacity (score : ℝ) : ℝ :=
  if score = 0 then 1 else (20 - Real.logb 10 score) / 180

/-- Options of a minimal track with an explicit (non-auto) colour and no
format-specific keys. -/
def plainKwargs : Kwargs :=
  ⟨[("color", "#0000ff")], some "Default", false, none, none, none, none,
   none, false, none, none, none⟩

/-- A track whose declared format (`ext[0]`) is not one of the recognized
values. -/
def mysteryTrack : Track :=
  ⟨["mystery"], "interval", ["x.dat"], ["X"], none, plainKwargs⟩

/-- Wiggle track configured for a named brewer diverging palette. -/
def wiggleBrewerTrack (scheme : String) : Track :=
  ⟨["bigwig"], "wiggle", [], [], none,
   ⟨[("color_config", "brewer"), ("color", scheme)], none, false, none,
    none, none, none, none, false, none, none, none⟩⟩

/-- Base descriptor of a read-alignments track as it stands when `add_bam`
is entered for one (file, label) pair. -/
def bamTrackData : PyDict :=
  [("style", JVal.sd [("color", "#ff0000")]),
   ("key", JVal.s "My reads"),
   ("label", JVal.s "abc123_0")]

/-- Options of a read-alignments track with the auto-SNP option set. -/
def bamAutoSnpKwargs : Kwargs :=
  ⟨[], some "Default", true, some "/data/reads.bam.bai", none, none, none,
   none, false, none, none, none⟩

/-- The descriptor `add_bam` submits for `bamTrackData`: the base
alignments descriptor. -/
def bamDescriptor : PyDict :=
  [("style", JVal.sd [("color", "#ff0000")]),
   ("key", JVal.s "My reads"),
   ("label", JVal.s "abc123_0"),
   ("urlTemplate", JVal.s "../data/raw/reads.bam"),
   ("type", JVal.s "JBrowse/View/Track/Alignments2"),
   ("storeClass", JVal.s "JBrowse/Store/SeqFeature/BAM"),
   ("category", JVal.s "Default")]

/-- Descriptor state of an interval-features track entering
`add_features`. -/
def featureTrackData : PyDict :=
  [("style", JVal.sd [("color", "#ff0000")]),
   ("key", JVal.s "K"),
   ("label", JVal.s "L")]

/-- Options of an interval-features track in match mode. -/
def matchKwargs : Kwargs :=
  ⟨[], none, false, none, none, none, none, none, true, none, none, none⟩

/-- Options of a pairwise-alignment-result track. -/
def blastKwargs : Kwargs :=
  ⟨[], some "Default", false, none, none, none, none, none, false,
   some "10", some false, some "/ref/parent.fa"⟩

/-- Helper: a name outside the recognized diverging-palette keys has no
entry in the palette table. -/
theorem divergingLookup_eq_none {name : String} (h : name ∉ divergingNames) :
    divergingLookup name = none := by
  simp only [divergingNames, BREWER_DIVERGING_PALLETES, List.map_cons,
    List.map_nil, List.mem_cons, List.not_mem_nil, or_false, not_or] at h
  obtain ⟨h1, h2, h3, h4, h5, h6, h7, h8, h9⟩ := h
  simp [divergingLookup, BREWER_DIVERGING_PALLETES, List.lookup,
    beq_eq_false_iff_ne.mpr h1, beq_eq_false_iff_ne.mpr h2,
    beq_eq_false_iff_ne.mpr h3, beq_eq_false_iff_ne.mpr h4,
    beq_eq_false_iff_ne.mpr h5, beq_eq_false_iff_ne.mpr h6,
    beq_eq_false_iff_ne.mpr h7, beq_eq_false_iff_ne.mpr h8,
    beq_eq_false_iff_ne.mpr h9]

/-- C1 (counterexample): dispatching a (file, label) pair whose declared
format is the unrecognized value `mystery` completes as a no-op — the run
returns successfully with no error raised, no external invocation and no
descriptor emitted (final state unchanged), contradicting the claim that a
configuration error is reported to the caller. -/
theorem unrecognized_format_noop_cex :
    process_annotations (fun f => f) allOk (fun _ => []) mysteryTrack
      PyState.init = (Except.ok (), PyState.init) := by decide

/-- C1 (amended): for every format value outside the seven recognized ones,
the dispatch chain of `process_annotations` silently ignores the
(file, label) pair: it has no fallback branch, so dispatch returns the
descriptor unchanged with no error reported and no effect performed. -/
theorem unrecognized_format_silently_ignored
    (format : String) (h : format ∉ recognizedFormats)
    (exitF : List String → Nat) (fileScores : String → List (Option ℚ))
    (dataset : String) (trackData : PyDict) (kwargs : Kwargs) :
    dispatchFormat exitF fileScores format dataset trackData kwargs
      = Eff.pure trackData := by
  simp only [recognizedFormats, List.mem_cons, List.not_mem_nil, or_false,
    not_or] at h
  obtain ⟨h1, h2, h3, h4, h5, h6, h7⟩ := h
  simp [dispatchFormat, beq_eq_false_iff_ne.mpr h1,
    beq_eq_false_iff_ne.mpr h2, beq_eq_false_iff_ne.mpr h3,
    beq_eq_false_iff_ne.mpr h4, beq_eq_false_iff_ne.mpr h5,
    beq_eq_false_iff_ne.mpr h6, beq_eq_false_iff_ne.mpr h7]

/-- C1 (witness): the amended theorem applied at the concrete format
`mystery`. -/
theorem unrecognized_format_silently_ignored_witness :
    dispatchFormat allOk (fun _ => []) "mystery" "x.dat" [] plainKwargs
      = Eff.pure [] :=
  unrecognized_format_silently_ignored "mystery" (by decide) allOk
    (fun _ => []) "x.dat" [] plainKwargs

/-- C2 (counterexample): starting from a fresh palette cursor, the 13th
consecutive sequential allocation does not return the 1st triple — it
returns no triple at all, raising IndexError (the cursor is incremented
past the 12-entry table with no modulo). -/
theorem palette_thirteenth_raises_cex :
    (allocColours 13 PyState.init).1 = Except.error PyErr.indexError := by
  decide

/-- C2 (amended): 12 consecutive sequential allocations from a fresh
cursor return the 12 pairwise-distinct entries of
`BREWER_COLOUR_SCHEMES` in order, and a 13th consecutive allocation fails
with IndexError instead of wrapping around. -/
theorem palette_twelve_distinct_thirteenth_raises :
    allocColours 12 PyState.init
      = (Except.ok BREWER_COLOUR_SCHEMES, ⟨12, 0, []⟩)
    ∧ BREWER_COLOUR_SCHEMES.Nodup
    ∧ (allocColours 13 PyState.init).1 = Except.error PyErr.indexError := by
  decide

/-- C3: the score-range scan returns (1.0, 5.0) on the spec's example
column and (None, None) on an empty file, but on a file whose parsed
scores are [0.0, 5.0] it returns (5.0, 5.0) instead of the true extremes
(0.0, 5.0): the Python idiom `min(value, (min_val or value))` treats a
running extreme of 0.0 as falsy and discards it. -/
theorem min_max_gff_zero_extreme_lost :
    _min_max_gff [some 1, none, some 5, some 3] = (some 1, some 5)
    ∧ _min_max_gff ([] : List (Option ℚ)) = (none, none)
    ∧ _min_max_gff [some 0, some 5] = (some 5, some 5) := by decide

/-- C4: for a match-mode track whose scanned range is min = max = 0, the
linear-normalize opacity snippet is built unguarded and its denominator is
the literal difference of two equal values — textually
`(1/($0.0 - $0.0))` — and the match-mode pipeline reaches this
construction (the run then fails when the enclosing colour-function
template is formatted, so the zero-denominator expression is constructed,
never guarded). -/
theorem min_max_unguarded_zero_denominator :
    MIN_MAX_OPACITY_MATH 0 0 = Except.ok
      "\n                var opacity = (score - $0.0) * (1/($0.0 - $0.0));\n                "
    ∧ (add_features allOk (fun _ => [some 0]) "genes.gff" "gff"
        featureTrackData matchKwargs PyState.init).1
      = Except.error (PyErr.fmtError FmtErr.unexpectedBraceInFieldName) := by
  decide

/-- C5: the opacity snippet embedded for pairwise-alignment-result tracks
follows the log-decay policy: opacity 1 at score 0, otherwise
(20 − log10(score)) / 180, and in particular score 100 yields opacity
0.1. -/
theorem blast_opacity_log_decay :
    logDecayOpacity 0 = 1
    ∧ (∀ score : ℝ, score ≠ 0 →
        logDecayOpacity score = (20 - Real.logb 10 score) / 180)
    ∧ logDecayOpacity 100 = 1 / 10 := by
  refine ⟨by simp [logDecayOpacity], fun s hs => by simp [logDecayOpacity, hs], ?_⟩
  have h100 : Real.logb 10 100 = 2 := by
    have he : (100 : ℝ) = 10 ^ (2 : ℕ) := by norm_num
    rw [he, Real.logb_pow, Real.logb_self_eq_one (by norm_num)]
    norm_num
  have hne : (100 : ℝ) ≠ 0 := by norm_num
  simp [logDecayOpacity, hne, h100]
  norm_num

/-- C5 (witness): the log-decay branch evaluated at the concrete score
100. -/
theorem blast_opacity_log_decay_witness :
    logDecayOpacity 100 = (20 - Real.logb 10 100) / 180 :=
  blast_opacity_log_decay.2.1 100 (by norm_num)

/-- C6: on a read-alignments pair with the auto-SNP option set, `add_bam`
emits two descriptors but both are the unmodified base alignments
descriptor: the derived SNP/coverage descriptor `trackData2` is built and
then discarded, because the final statement submits `trackData` again.
The claim that the second descriptor carries the SNP/coverage type and a
derived key/label is contradicted by the second payload, whose type is
still the alignments type and whose key and label equal the base ones. -/
theorem auto_snp_submits_base_descriptor_twice :
    descriptorPayloads
      (add_bam allOk "/data/reads.bam" bamTrackData bamAutoSnpKwargs
        PyState.init).2.trace
      = [bamDescriptor, bamDescriptor]
    ∧ (add_bam allOk "/data/reads.bam" bamTrackData bamAutoSnpKwargs
        PyState.init).1 = Except.ok bamDescriptor
    ∧ bamDescriptor.lookup "type"
      = some (JVal.s "JBrowse/View/Track/Alignments2")
    ∧ bamDescriptor.lookup "key" = some (JVal.s "My reads") := by decide

/-- C7: the diverging-palette lookup is total over exactly the 9
recognized names: RdBu maps to the pair (#67001f, #053061), and any name
outside the 9 keys has no entry, so the wiggle colour parser raises the
unknown-palette error for it. -/
theorem diverging_palette_total_over_nine
    (name : String) (h : name ∉ divergingNames) :
    divergingLookup "RdBu" = some ("#67001f", "#053061")
    ∧ divergingNames.length = 9
    ∧ divergingLookup name = none
    ∧ (_parse_colours (wiggleBrewerTrack name) PyState.init).1
      = Except.error (PyErr.exception "Unknown pallete") := by
  refine ⟨by decide, by decide, divergingLookup_eq_none h, ?_⟩
  simp [_parse_colours, wiggleBrewerTrack, styleGet, List.lookup,
    divergingLookup_eq_none h, Bind.bind, Eff.bind, Eff.pure, Eff.throw]

/-- C7 (witness): the theorem applied at the concrete unrecognized name
`unknown`. -/
theorem diverging_palette_total_over_nine_witness :
    divergingLookup "RdBu" = some ("#67001f", "#053061")
    ∧ divergingNames.length = 9
    ∧ divergingLookup "unknown" = none
    ∧ (_parse_colours (wiggleBrewerTrack "unknown") PyState.init).1
      = Except.error (PyErr.exception "Unknown pallete") :=
  diverging_palette_total_over_nine "unknown" (by decide)

/-- C8 (counterexample): when the config-merge invocation exits non-zero,
the transient payload file written for the call is not deleted: the run
aborts with CalledProcessError and the trace ends after the merge
invocation, containing no unlink for the written payload file. -/
theorem add_json_failure_leaks_payload_cex :
    _add_json (fun _ => 1) [("type", JVal.s "x")] PyState.init
      = (Except.error (PyErr.calledProcessError 1),
         ⟨0, 1, [Effect.writeTmp "/tmp/tmp0" [("type", JVal.s "x")],
                 Effect.runCmd ["perl", "bin/add-track-json.pl", "/tmp/tmp0",
                                "data/trackList.json"]]⟩)
    ∧ ([Effect.writeTmp "/tmp/tmp0" [("type", JVal.s "x")],
        Effect.runCmd ["perl", "bin/add-track-json.pl", "/tmp/tmp0",
                       "data/trackList.json"]].filter isUnlinkEffect) = [] := by
  decide

/-- C8 (amended): the transient payload file written by `_add_json` for a
non-empty descriptor is deleted only when the merge invocation succeeds;
on a non-zero exit status the CalledProcessError propagates before the
unlink, and the payload file is left behind. -/
theorem add_json_unlink_only_on_success
    (json_data : PyDict) (c : Nat) (h : json_data ≠ []) :
    _add_json (fun _ => c) json_data PyState.init
      = (if c = 0 then
          (Except.ok (),
           ⟨0, 1, [Effect.writeTmp "/tmp/tmp0" json_data,
                   Effect.runCmd ["perl", "bin/add-track-json.pl",
                                  "/tmp/tmp0", "data/trackList.json"],
                   Effect.unlink "/tmp/tmp0"]⟩)
         else
          (Except.error (PyErr.calledProcessError c),
           ⟨0, 1, [Effect.writeTmp "/tmp/tmp0" json_data,
                   Effect.runCmd ["perl", "bin/add-track-json.pl",
                                  "/tmp/tmp0", "data/trackList.json"]]⟩)) := by
  obtain ⟨x, t, rfl⟩ := List.exists_cons_of_ne_nil h
  cases c with
  | zero => rfl
  | succ k => rfl

/-- C8 (witness): the amended theorem applied to a concrete one-entry
descriptor with a succeeding merge invocation. -/
theorem add_json_unlink_only_on_success_witness :
    _add_json (fun _ => 0) [("type", JVal.s "x")] PyState.init
      = (if 0 = 0 then
          (Except.ok (),
           ⟨0, 1, [Effect.writeTmp "/tmp/tmp0" [("type", JVal.s "x")],
                   Effect.runCmd ["perl", "bin/add-track-json.pl",
                                  "/tmp/tmp0", "data/trackList.json"],
                   Effect.unlink "/tmp/tmp0"]⟩)
         else
          (Except.error (PyErr.calledProcessError 0),
           ⟨0, 1, [Effect.writeTmp "/tmp/tmp0" [("type", JVal.s "x")],
                   Effect.runCmd ["perl", "bin/add-track-json.pl",
                                  "/tmp/tmp0", "data/trackList.json"]]⟩)) :=
  add_json_unlink_only_on_success [("type", JVal.s "x")] 0 (by decide)

/-- C9: formatting `COLOR_FUNCTION_TEMPLATE` raises for every combination
of positional and keyword arguments (the parser hits the unescaped
JavaScript brace while reading a field name, before looking at any
argument), so the colour-function construction of `add_blastxml` and of
match-mode `add_features` (reached when the scanned range is non-None)
raises on every input and neither path ever emits a score-coloured
descriptor. -/
theorem color_template_format_always_raises :
    (∀ (args : List PyVal) (kwargs : List (String × String)),
      pyFormat args kwargs COLOR_FUNCTION_TEMPLATE
        = Except.error FmtErr.unexpectedBraceInFieldName)
    ∧ (add_blastxml allOk "/q/hits.blastxml" featureTrackData blastKwargs
        PyState.init).1
      = Except.error (PyErr.fmtError FmtErr.unexpectedBraceInFieldName)
    ∧ descriptorPayloads
        (add_blastxml allOk "/q/hits.blastxml" featureTrackData blastKwargs
          PyState.init).2.trace = []
    ∧ (add_features allOk (fun _ => [some 3, some 7]) "genes.bed" "bed"
        featureTrackData matchKwargs PyState.init).1
      = Except.error (PyErr.fmtError FmtErr.unexpectedBraceInFieldName)
    ∧ descriptorPayloads
        (add_features allOk (fun _ => [some 3, some 7]) "genes.bed" "bed"
          featureTrackData matchKwargs PyState.init).2.trace = [] := by
  refine ⟨fun args kwargs => rfl, by decide, by decide, by decide, by decide⟩

/-- C10: for every variant-calls file and descriptor, `add_vcf` performs
exactly the link, block-gzip and tabix-index side effects and then raises
NameError on the unbound name `trackData` (its descriptor parameter is
bound to `clientConfig`), so no variant-calls descriptor is ever handed to
the config store while the workspace side effects remain. -/
theorem add_vcf_name_error (data : String) (clientConfig : PyDict) :
    add_vcf allOk data clientConfig PyState.init
      = (Except.error (PyErr.nameError "trackData"),
         ⟨0, 0,
          [Effect.runCmd ["ln", "-s", data, "data/raw/" ++ pyBasename data],
           Effect.runCmd ["bgzip", "data/raw/" ++ pyBasename data],
           Effect.runCmd ["tabix", "-p", "vcf",
                          "data/raw/" ++ pyBasename data ++ ".gz"]]⟩)
    ∧ descriptorPayloads
        (add_vcf allOk data clientConfig PyState.init).2.trace = [] := by
  exact ⟨rfl, rfl⟩
